import Mathlib

/-!
Verification development for a scheduled order-total reporting worker.

The worker collects yesterday's order counts and revenue totals from
configured Shopify and Magento stores and posts a formatted summary to a
Zoho Cliq webhook.  The definitions below are a shallow embedding of the
worker's source (`src/index.ts`, latest revision): timestamps are epoch
milliseconds as `Int`, JavaScript numbers that can be `NaN` are
`Option ℚ` (with `none` playing the role of `NaN`), network calls are
abstracted as oracles passed in as function arguments, and thrown
exceptions are `Except String`.
-/

/-! ## Epoch-millisecond calendar arithmetic (embedding of the JS `Date` methods used) -/

/-- Days since 1970-01-01 for a civil date `(y, m, d)` with month `1..12`.
The day `d` may be out of range (e.g. `0` or `32`): the formula is affine in
`d`, which matches the rollover behaviour of `Date.UTC` and `setUTCDate`. -/
def daysFromCivil (y : Int) (m : Nat) (d : Int) : Int :=
  let y' : Int := if m ≤ 2 then y - 1 else y
  let era : Int := y'.fdiv 400
  let yoe : Nat := (y' - era * 400).toNat
  let mp : Nat := if m > 2 then m - 3 else m + 9
  let doyBase : Nat := (153 * mp + 2) / 5
  let doe : Int := (yoe : Int) * 365 + (yoe / 4 : Nat) - (yoe / 100 : Nat) + doyBase + d - 1
  era * 146097 + doe - 719468

/-- Civil date `(year, month 1..12, day 1..31)` of a day count since 1970-01-01. -/
def civilFromDays (z : Int) : Int × Nat × Nat :=
  let z' : Int := z + 719468
  let era : Int := z'.fdiv 146097
  let doe : Nat := (z' - era * 146097).toNat
  let yoe : Nat := (doe - doe / 1460 + doe / 36524 - doe / 146096) / 365
  let y : Int := (yoe : Int) + era * 400
  let doy : Nat := doe - (365 * yoe + yoe / 4 - yoe / 100)
  let mp : Nat := (5 * doy + 2) / 153
  let d : Nat := doy - (153 * mp + 2) / 5 + 1
  let m : Nat := if mp < 10 then mp + 3 else mp - 9
  (if m ≤ 2 then y + 1 else y, m, d)

def msPerDay : Int := 86400000

/-- Day count of a timestamp (floor division, as `Date` does for UTC fields). -/
def dayOfTimestamp (t : Int) : Int := t.fdiv msPerDay

/-- Milliseconds elapsed since UTC midnight, in `[0, 86400000)`. -/
def timeOfDayMs (t : Int) : Int := t - msPerDay * t.fdiv msPerDay

/-- `Date.prototype.getUTCFullYear`. -/
def getUTCFullYear (t : Int) : Int := (civilFromDays (dayOfTimestamp t)).1

/-- `Date.prototype.getUTCMonth` (0-based month index). -/
def getUTCMonth (t : Int) : Nat := (civilFromDays (dayOfTimestamp t)).2.1 - 1

/-- `Date.prototype.getUTCDate` (day of month, 1-based). -/
def getUTCDate (t : Int) : Nat := (civilFromDays (dayOfTimestamp t)).2.2

/-- `Date.prototype.setUTCDate`: replace the day of month (with rollover),
keeping year, month and time of day. -/
def setUTCDate (t : Int) (n : Int) : Int :=
  let c := civilFromDays (dayOfTimestamp t)
  daysFromCivil c.1 c.2.1 n * msPerDay + timeOfDayMs t

/-- `Date.UTC(year, monthIndex, day, hh, mm, ss, ms)` with a 0-based month index. -/
def dateUTC (y : Int) (monthIndex : Nat) (d : Int) (hh mm ss ms : Int) : Int :=
  daysFromCivil y (monthIndex + 1) d * msPerDay
    + hh * 3600000 + mm * 60000 + ss * 1000 + ms

def pad2 (n : Nat) : String := if n < 10 then "0" ++ toString n else toString n

def pad3 (n : Nat) : String :=
  if n < 10 then "00" ++ toString n
  else if n < 100 then "0" ++ toString n
  else toString n

/-- Four-digit year field (the worker only handles contemporary years). -/
def pad4 (n : Nat) : String :=
  if n < 10 then "000" ++ toString n
  else if n < 100 then "00" ++ toString n
  else if n < 1000 then "0" ++ toString n
  else toString n

/-- `Date.prototype.toISOString`: `YYYY-MM-DDTHH:MM:SS.sssZ`. -/
def toISOString (t : Int) : String :=
  let c := civilFromDays (dayOfTimestamp t)
  let tod : Nat := (timeOfDayMs t).toNat
  pad4 c.1.toNat ++ "-" ++ pad2 c.2.1 ++ "-" ++ pad2 c.2.2 ++ "T"
    ++ pad2 (tod / 3600000) ++ ":" ++ pad2 (tod % 3600000 / 60000) ++ ":"
    ++ pad2 (tod % 60000 / 1000) ++ "." ++ pad3 (tod % 1000) ++ "Z"

/-! ## Date Range Calculator (`getYesterdayPST`) -/

/-- Embedding of `getYesterdayPST`, parameterised by the current instant
`now` (epoch ms) that `new Date()` reads.  Shifts by the fixed -8 h offset,
steps the UTC day-of-month back by one, and pins the boundaries to
08:00:00.000 UTC and 07:59:59.999 UTC of the following day. -/
def getYesterdayPST (now : Int) : String × String :=
  let currentPST := now + (-8) * 60 * 60 * 1000
  let yesterdayPST := setUTCDate currentPST ((getUTCDate currentPST : Int) - 1)
  let year := getUTCFullYear yesterdayPST
  let month := getUTCMonth yesterdayPST
  let day : Int := getUTCDate yesterdayPST
  let startPST := dateUTC year month day 8 0 0 0
  let endPST := dateUTC year month (day + 1) 7 59 59 999
  (toISOString startPST, toISOString endPST)

/-- The fixed current instant of the date-range test: 2024-03-15T10:00:00.000Z. -/
def fixedNow : Int := daysFromCivil 2024 3 15 * msPerDay + 10 * 3600000

deriving instance DecidableEq for Except

/-! ## JavaScript numbers and `parseFloat` -/

/-- A JavaScript number that may be `NaN`; `none` is `NaN`. -/
abbrev JNum := Option ℚ

/-- JavaScript `+` on numbers: `NaN` absorbs. -/
def jadd : JNum → JNum → JNum
  | some a, some b => some (a + b)
  | _, _ => none

def digitsToNat (ds : List Char) : Nat :=
  ds.foldl (fun n c => 10 * n + (c.toNat - 48)) 0

/-- JS `parseFloat` restricted to the plain decimal forms that occur in the
worker's API payloads: optional leading whitespace and sign, then digits
with an optional fractional part; trailing garbage is ignored and a string
with no leading digits parses to `NaN` (`none`).  Exponent and `Infinity`
forms do not occur in this domain and are not modelled. -/
def parseFloat (s : String) : JNum :=
  let cs := s.toList.dropWhile Char.isWhitespace
  let signAndRest : ℚ × List Char :=
    match cs with
    | '-' :: rest => (-1, rest)
    | '+' :: rest => (1, rest)
    | _ => (1, cs)
  let intPart := signAndRest.2.takeWhile Char.isDigit
  let rest := signAndRest.2.dropWhile Char.isDigit
  let fracPart : List Char :=
    match rest with
    | '.' :: r => r.takeWhile Char.isDigit
    | _ => []
  if intPart.isEmpty && fracPart.isEmpty then none
  else some (signAndRest.1 *
    ((digitsToNat intPart : ℚ) + (digitsToNat fracPart : ℚ) / (10 : ℚ) ^ fracPart.length))

/-! ## Data model -/

inductive StoreType where
  | shopify
  | magento
deriving DecidableEq

/-- A store descriptor (`ShopifyStore` / `MagentoStore` in the source). -/
structure Store where
  type : StoreType
  domain : String
  accessToken : String
deriving DecidableEq

/-- Aggregate result for one store (`StoreMetrics` in the source). -/
structure StoreMetrics where
  orderCount : Nat
  totalAmount : JNum
deriving DecidableEq

/-- The environment record consumed by the worker. -/
structure Environment where
  SHOPIFY_DOMAINS : String
  SHOPIFY_ACCESS_TOKENS : String
  MAGENTO_DOMAINS : String
  MAGENTO_ACCESS_TOKENS : String
  ZOHO_CLIQ_API_ENDPOINT : String
  ZOHO_CLIQ_WEBHOOK_TOKEN : String
  ZOHO_CLIQ_BOTNAME : String
deriving DecidableEq

/-- A date range as computed by `getYesterdayPST`, as timestamps (the ISO
strings of the source round-trip to these epoch-ms values). -/
structure DateRange where
  start : Int
  stop : Int
deriving DecidableEq

/-! ## JavaScript string helpers (`split`, `trim`) -/

/-- Split a character list at every occurrence of `sep`; the result always
has at least one (possibly empty) group, like JS `String.prototype.split`. -/
def splitAtSep (sep : Char) : List Char → List (List Char)
  | [] => [[]]
  | c :: rest =>
    let r := splitAtSep sep rest
    if c = sep then [] :: r
    else
      match r with
      | [] => [[c]]
      | g :: gs => (c :: g) :: gs

/-- JS `"s".split(sep)` for a one-character separator: `"".split(",") = [""]`
and `",".split(",") = ["", ""]`. -/
def jsSplit (s : String) (sep : Char) : List String :=
  (splitAtSep sep s.toList).map (fun g => String.mk g)

/-- JS `String.prototype.trim`: strip leading and trailing whitespace. -/
def jsTrim (s : String) : String :=
  String.mk (((s.toList.dropWhile Char.isWhitespace).reverse.dropWhile
    Char.isWhitespace).reverse)

/-! ## Configuration Loader (`getStoresFromEnv`) -/

/-- Embedding of `getStoresFromEnv`.  An absent environment field is the
empty string (JS truthiness: `""` is falsy).  Shopify fields are
comma-split and trimmed and must agree in length; the Magento fields are
wrapped in singleton lists without splitting. -/
def getStoresFromEnv (env : Environment) : Except String (List Store) :=
  let shopifyPart : Except String (List Store) :=
    if env.SHOPIFY_DOMAINS ≠ "" ∧ env.SHOPIFY_ACCESS_TOKENS ≠ "" then
      let shopifyDomains := (jsSplit env.SHOPIFY_DOMAINS ',').map jsTrim
      let shopifyTokens := (jsSplit env.SHOPIFY_ACCESS_TOKENS ',').map jsTrim
      if shopifyDomains.length ≠ shopifyTokens.length then
        Except.error "Number of domains and access tokens must match"
      else
        Except.ok (List.zipWith (fun d t => Store.mk StoreType.shopify d t)
          shopifyDomains shopifyTokens)
    else Except.ok []
  match shopifyPart with
  | Except.error e => Except.error e
  | Except.ok acc =>
    if env.MAGENTO_DOMAINS ≠ "" ∧ env.MAGENTO_ACCESS_TOKENS ≠ "" then
      let magentoDomains := [env.MAGENTO_DOMAINS]
      let magentoTokens := [env.MAGENTO_ACCESS_TOKENS]
      if magentoDomains.length ≠ magentoTokens.length then
        Except.error "Number of Magento domains and access tokens must match"
      else
        Except.ok (acc ++ List.zipWith (fun d t => Store.mk StoreType.magento d t)
          magentoDomains magentoTokens)
    else Except.ok acc

/-! ## Report Dispatcher (`sendToCliq`) and the metrics map -/

/-- Assignment `obj[k] = v` on a JS object represented as an association
list: an existing key keeps its original position (JS objects preserve
first-insertion order), a new key is appended. -/
def assocSet {α : Type} (m : List (String × α)) (k : String) (v : α) :
    List (String × α) :=
  match m with
  | [] => [(k, v)]
  | (k', v') :: rest =>
    if k' = k then (k', v) :: rest else (k', v') :: assocSet rest k v

/-- Key lookup `obj[k]` on the association-list object. -/
def assocGet {α : Type} (m : List (String × α)) (k : String) : Option α :=
  match m with
  | [] => none
  | (k', v) :: rest => if k' = k then some v else assocGet rest k

/-- The fixed display-alias table `domainName` in `sendToCliq`. -/
def domainName (d : String) : Option String :=
  if d = "eliquid-com" then some "eliquid.com"
  else if d = "MistHub" then some "misthub.com"
  else if d = "ejuices-co" then some "ejuices.co"
  else if d = "ejuices" then some "ejuices.com"
  else if d = "yamivapor" then some "yamivapor"
  else if d = "deals-305" then some "alohasunvapor.com"
  else if d = "ca2bbf" then some "rodman9k.com"
  else none

/-- `domainName[domain] || domain`: alias-table hit, or the raw key. -/
def displayName (d : String) : String := (domainName d).getD d

/-- Sum of `orderCount` over `Object.values(storeData)`. -/
def totalOrdersOf (storeData : List (String × StoreMetrics)) : Nat :=
  storeData.foldl (fun sum p => sum + p.2.orderCount) 0

/-- Sum of `totalAmount` over `Object.values(storeData)` (computed by the
source but not used in the emitted text). -/
def totalAmountOf (storeData : List (String × StoreMetrics)) : JNum :=
  storeData.foldl (fun sum p => jadd sum p.2.totalAmount) (some 0)

/-- The report text built inside `sendToCliq`.  The per-store revenue line
and the grand-total revenue line are commented out in the source, so only
order counts appear. -/
def cliqMessageText (storeData : List (String × StoreMetrics)) (date : String) :
    String :=
  "📊 Sales Report for " ++ date ++ "\n\n"
    ++ String.intercalate "\n\n"
      (storeData.map (fun p =>
        displayName p.1 ++ ":\n" ++ "📦 Orders: " ++ toString p.2.orderCount ++ "\n"))
    ++ "\n\n📈 Summary:\n"
    ++ "Total Orders: " ++ toString (totalOrdersOf storeData) ++ "\n"

/-- An HTTP response as far as the worker inspects it. -/
structure HttpResponse where
  ok : Bool
  statusText : String
deriving DecidableEq

/-- Embedding of `sendToCliq`: builds the report text, posts it (the
webhook's answer is the `resp` oracle), and throws when the response is not
ok.  The delivered text is returned on success. -/
def sendToCliq (resp : HttpResponse) (storeData : List (String × StoreMetrics))
    (date : String) : Except String String :=
  let message := cliqMessageText storeData date
  if resp.ok then Except.ok message
  else Except.error ("Failed to send message to Cliq: " ++ resp.statusText)

/-! ## Scheduled Entry Point -/

/-- The per-store task body inside `Promise.all`: a fetch failure is caught
and replaced by zero metrics.  The `fetch` oracle abstracts
`fetchShopifyOrders` / `fetchMagentoOrders` applied to the run's date
range. -/
def fetchStore (fetch : Store → Except String StoreMetrics) (s : Store) :
    StoreMetrics :=
  match fetch s with
  | Except.ok m => m
  | Except.error _ => { orderCount := 0, totalAmount := some 0 }

/-- The metrics map built by the scheduled handler: every configured store
writes its (or the fallback zero) metrics under its domain key. -/
def buildStoreMetrics (stores : List Store)
    (fetch : Store → Except String StoreMetrics) :
    List (String × StoreMetrics) :=
  stores.foldl (fun acc s => assocSet acc s.domain (fetchStore fetch s)) []

/-- Observable outcome of one scheduled invocation. -/
structure RunOutcome where
  metrics : List (String × StoreMetrics)
  webhookSends : Nat
  raised : Bool
deriving DecidableEq

/-- Embedding of the `scheduled` handler.  Configuration errors and
delivery errors reach the top-level `try`/`catch`, which logs and swallows
them, so every branch yields `raised := false`; the webhook is posted to
exactly once whenever configuration loading succeeds, whatever the
response. -/
def scheduledRun (env : Environment) (fetch : Store → Except String StoreMetrics)
    (resp : HttpResponse) (date : String) : RunOutcome :=
  match getStoresFromEnv env with
  | Except.error _ => { metrics := [], webhookSends := 0, raised := false }
  | Except.ok stores =>
    let storeMetrics := buildStoreMetrics stores fetch
    match sendToCliq resp storeMetrics date with
    | Except.ok _ => { metrics := storeMetrics, webhookSends := 1, raised := false }
    | Except.error _ => { metrics := storeMetrics, webhookSends := 1, raised := false }

/-! ## Shopify Order Fetcher (`fetchShopifyOrders`) -/

/-- One order edge of a Shopify GraphQL page
(`edge.node.totalPriceSet.shopMoney`). -/
structure ShopifyEdge where
  amount : String
  currencyCode : String
deriving DecidableEq

/-- One page of the Shopify `orders` connection, as far as the fetcher
reads it. -/
structure ShopifyPage where
  edges : List ShopifyEdge
  hasNextPage : Bool
  endCursor : Option String
deriving DecidableEq

def MAX_PAGES : Nat := 20

/-- The `while (hasNextPage && pageCount < MAX_PAGES)` loop of
`fetchShopifyOrders`.  The mocked API is the oracle `pages`, keyed by the
request number; `fuel` is `MAX_PAGES - pageCount`, `cursor` is threaded
from `pageInfo.endCursor` exactly as in the source (the index-keyed mock
does not consult it).  Returns the accumulated edges and the number of
page requests issued. -/
def shopifyLoop (pages : Nat → Except String ShopifyPage) :
    Nat → Nat → Option String → List ShopifyEdge →
    Except String (List ShopifyEdge × Nat)
  | 0, pageCount, _, acc => Except.ok (acc, pageCount)
  | fuel + 1, pageCount, _, acc =>
    match pages pageCount with
    | Except.error e => Except.error e
    | Except.ok p =>
      let acc' := acc ++ p.edges
      if p.hasNextPage then shopifyLoop pages fuel (pageCount + 1) p.endCursor acc'
      else Except.ok (acc', pageCount + 1)

/-- Sum of `parseFloat(edge.node.totalPriceSet.shopMoney.amount)` over all
accumulated edges; no `NaN` guard, exactly as in the source. -/
def shopifySum (edges : List ShopifyEdge) : JNum :=
  edges.foldl (fun sum e => jadd sum (parseFloat e.amount)) (some 0)

/-- Embedding of `fetchShopifyOrders` over the page oracle: run the
paginated loop (initial cursor `undefined`, `pageCount = 0`) and aggregate
the collected edges. -/
def fetchShopifyOrders (pages : Nat → Except String ShopifyPage) :
    Except String (StoreMetrics × Nat) :=
  match shopifyLoop pages MAX_PAGES 0 none [] with
  | Except.error e => Except.error e
  | Except.ok (allOrders, pageCount) =>
    Except.ok ({ orderCount := allOrders.length,
                 totalAmount := shopifySum allOrders }, pageCount)

/-- The edges of an already-fetched page, for stating which orders the
fetcher returns (`[]` for an error response, which the capped fetch never
reads). -/
def okEdges (r : Except String ShopifyPage) : List ShopifyEdge :=
  match r with
  | Except.ok p => p.edges
  | Except.error _ => []

/-- The edges of the first `n` pages of the mocked API, in request order. -/
def pagesEdges (pages : Nat → Except String ShopifyPage) (n : Nat) :
    List ShopifyEdge :=
  ((List.range n).map (fun i => okEdges (pages i))).flatten

/-! ## Magento Order Fetcher (`fetchMagentoOrders`) -/

/-- A Magento order item, as far as the fetcher reads it: the `grand_total`
field may be absent. -/
structure MagentoOrder where
  grand_total : Option String
deriving DecidableEq

/-- One page of the Magento `/rest/V1/orders` response: `items` and
`total_count` may both be absent. -/
structure MagentoPage where
  items : Option (List MagentoOrder)
  total_count : Option Nat
deriving DecidableEq

/-- The `formatDate` closure of `fetchMagentoOrdersPage`: UTC calendar
fields of the timestamp, with the time of day pinned by `isEndDate`. -/
def magentoFormatDate (date : Int) (isEndDate : Bool) : String :=
  let c := civilFromDays (dayOfTimestamp date)
  let time := if isEndDate then "23:59:59" else "00:00:00"
  pad4 c.1.toNat ++ "-" ++ pad2 c.2.1 ++ "-" ++ pad2 c.2.2 ++ " " ++ time

/-- The `searchCriteria` query parameters of `fetchMagentoOrdersPage`.
Both `created_at` boundaries are computed from `dateRange.start`. -/
def magentoSearchCriteria (dateRange : DateRange) (page : Nat) :
    List (String × String) :=
  let startDate := magentoFormatDate dateRange.start false
  let endDate := magentoFormatDate dateRange.start true
  [("searchCriteria[filterGroups][0][filters][0][field]", "created_at"),
   ("searchCriteria[filterGroups][0][filters][0][value]", startDate),
   ("searchCriteria[filterGroups][0][filters][0][condition_type]", "gteq"),
   ("searchCriteria[filterGroups][1][filters][0][field]", "created_at"),
   ("searchCriteria[filterGroups][1][filters][0][value]", endDate),
   ("searchCriteria[filterGroups][1][filters][0][condition_type]", "lteq"),
   ("searchCriteria[sortOrders][0][field]", "created_at"),
   ("searchCriteria[sortOrders][0][direction]", "DESC"),
   ("searchCriteria[currentPage]", toString page),
   ("searchCriteria[pageSize]", "100")]

/-- One order's contribution to the Magento total:
`parseFloat(order.grand_total || '0')`, with `NaN` replaced by `0`. -/
def magentoOrderTotal (o : MagentoOrder) : ℚ :=
  let raw := match o.grand_total with
    | none => "0"
    | some s => if s = "" then "0" else s
  match parseFloat raw with
  | none => 0
  | some q => q

/-- Embedding of `fetchMagentoOrders` over the page oracle (keyed by the
1-based `currentPage` parameter): page 1 determines `total_count`, pages
`2..totalPages` (`totalPages = ceil(total_count / 100)`) are fetched
sequentially, then the items are aggregated; missing or non-numeric
`grand_total` values contribute `0`. -/
def fetchMagentoOrders (pages : Nat → Except String MagentoPage) :
    Except String StoreMetrics :=
  match pages 1 with
  | Except.error e => Except.error e
  | Except.ok firstPage =>
    let firstOrders := firstPage.items.getD []
    let totalItems := firstPage.total_count.getD 0
    let totalPages := (totalItems + 99) / 100
    let rest := (List.range' 2 (totalPages - 1)).foldlM
      (fun (acc : List MagentoOrder) p =>
        match pages p with
        | Except.error e => Except.error e
        | Except.ok pageData =>
          Except.ok (match pageData.items with
            | some items => acc ++ items
            | none => acc))
      firstOrders
    match rest with
    | Except.error e => Except.error e
    | Except.ok allOrders =>
      Except.ok { orderCount := allOrders.length,
                  totalAmount :=
                    some (allOrders.foldl (fun sum o => sum + magentoOrderTotal o) 0) }

/-! ## Statement helpers -/

/-- `pat` occurs as a contiguous substring of `s`. -/
def strContainsSub (s pat : String) : Bool :=
  s.toList.tails.any (fun t => pat.toList.isPrefixOf t)

/-- The `YYYY-MM-DD` rendering of a timestamp's UTC calendar fields. -/
def utcDatePart (t : Int) : String :=
  let c := civilFromDays (dayOfTimestamp t)
  pad4 c.1.toNat ++ "-" ++ pad2 c.2.1 ++ "-" ++ pad2 c.2.2

/-- `magentoFormatDate` splits into the `YYYY-MM-DD` date part of its
timestamp's UTC calendar fields and the pinned time of day. -/
theorem magentoFormatDate_eq_parts (t : Int) :
    magentoFormatDate t false = utcDatePart t ++ " 00:00:00" ∧
    magentoFormatDate t true = utcDatePart t ++ " 23:59:59" := by
  unfold magentoFormatDate utcDatePart
  constructor <;> (rw [String.append_assoc]; congr 1)

/-! ## Claims -/

/-- C1 counterexample: at the fixed current instant 2024-03-15T10:00:00.000Z
the date-range calculator does not return the range claimed by the
specification (start 2024-03-13T08:00:00.000Z, end 2024-03-14T07:59:59.999Z);
neither component matches. -/
theorem getYesterdayPST_spec_cex :
    toISOString fixedNow = "2024-03-15T10:00:00.000Z" ∧
    getYesterdayPST fixedNow ≠
      ("2024-03-13T08:00:00.000Z", "2024-03-14T07:59:59.999Z") ∧
    (getYesterdayPST fixedNow).1 ≠ "2024-03-13T08:00:00.000Z" ∧
    (getYesterdayPST fixedNow).2 ≠ "2024-03-14T07:59:59.999Z" := by
  decide

/-- C1 (amended): for the fixed current instant 2024-03-15T10:00:00.000Z
(whose Pacific date under the fixed -8 h offset is March 15, so Pacific
"yesterday" is March 14), `getYesterdayPST` returns
start = 2024-03-14T08:00:00.000Z and end = 2024-03-15T07:59:59.999Z, both
as ISO-8601 UTC strings. -/
theorem getYesterdayPST_fixed_instant :
    toISOString fixedNow = "2024-03-15T10:00:00.000Z" ∧
    getYesterdayPST fixedNow =
      ("2024-03-14T08:00:00.000Z", "2024-03-15T07:59:59.999Z") := by
  decide

/-- C5: for the metrics map
`{eliquid-com ↦ (2, 50), unknown-domain ↦ (3, 75)}` and date `2024-03-14`,
the report text has header `📊 Sales Report for 2024-03-14`, shows the
first store as `eliquid.com` (alias hit) and the second as
`unknown-domain` (alias miss falls back to the raw key), its summary line
reads `Total Orders: 5`, and it contains no per-store or total revenue
line. -/
theorem cliq_report_text :
    cliqMessageText
        [("eliquid-com", ⟨2, some 50⟩), ("unknown-domain", ⟨3, some 75⟩)]
        "2024-03-14" =
      "📊 Sales Report for 2024-03-14\n\neliquid.com:\n📦 Orders: 2\n\n\nunknown-domain:\n📦 Orders: 3\n\n\n📈 Summary:\nTotal Orders: 5\n" ∧
    (let msg := cliqMessageText
        [("eliquid-com", ⟨2, some 50⟩), ("unknown-domain", ⟨3, some 75⟩)]
        "2024-03-14"
     ("📊 Sales Report for 2024-03-14").toList.isPrefixOf msg.toList = true ∧
     strContainsSub msg "eliquid.com:\n📦 Orders: 2" = true ∧
     strContainsSub msg "unknown-domain:\n📦 Orders: 3" = true ∧
     strContainsSub msg "Total Orders: 5" = true ∧
     strContainsSub msg "💰" = false ∧
     strContainsSub msg "Total Amount" = false ∧
     strContainsSub msg "Total: $" = false) := by
  decide

/-- C7: for every date range and page number, the Magento search criteria
derive both `created_at` filter boundaries from the range's start value
only — the `gteq` boundary is the start's UTC `YYYY-MM-DD` date part with
time `00:00:00`, the `lteq` boundary is the same date part with time
`23:59:59`, and replacing the range's end timestamp by any other value
leaves the whole parameter list unchanged. -/
theorem magento_filters_from_start (dateRange : DateRange) (page : Nat)
    (otherEnd : Int) :
    assocGet (magentoSearchCriteria dateRange page)
        "searchCriteria[filterGroups][0][filters][0][value]" =
      some (utcDatePart dateRange.start ++ " 00:00:00") ∧
    assocGet (magentoSearchCriteria dateRange page)
        "searchCriteria[filterGroups][1][filters][0][value]" =
      some (utcDatePart dateRange.start ++ " 23:59:59") ∧
    magentoSearchCriteria { start := dateRange.start, stop := otherEnd } page =
      magentoSearchCriteria dateRange page := by
  refine ⟨?_, ?_, rfl⟩ <;>
    simp [magentoSearchCriteria, assocGet,
      (magentoFormatDate_eq_parts dateRange.start).1,
      (magentoFormatDate_eq_parts dateRange.start).2]

/-- The Magento contribution to the configured store list, for stating the
Shopify parity property: one descriptor when both Magento fields are
non-empty, none otherwise. -/
def magentoPart (env : Environment) : List Store :=
  if env.MAGENTO_DOMAINS ≠ "" ∧ env.MAGENTO_ACCESS_TOKENS ≠ "" then
    [Store.mk StoreType.magento env.MAGENTO_DOMAINS env.MAGENTO_ACCESS_TOKENS]
  else []

/-- C3: whenever both Shopify environment fields are present and non-empty,
`getStoresFromEnv` fails with the "Number of domains and access tokens must
match" error exactly when the comma-split lists differ in length, and
otherwise returns the positional pairing of the trimmed domains with the
trimmed tokens (followed by the Magento descriptors); the pairing has
exactly as many descriptors as the domain list. -/
theorem getStoresFromEnv_parity (env : Environment)
    (h1 : env.SHOPIFY_DOMAINS ≠ "") (h2 : env.SHOPIFY_ACCESS_TOKENS ≠ "") :
    getStoresFromEnv env =
      (if ((jsSplit env.SHOPIFY_DOMAINS ',').map jsTrim).length =
          ((jsSplit env.SHOPIFY_ACCESS_TOKENS ',').map jsTrim).length then
        Except.ok
          (List.zipWith (fun d t => Store.mk StoreType.shopify d t)
              ((jsSplit env.SHOPIFY_DOMAINS ',').map jsTrim)
              ((jsSplit env.SHOPIFY_ACCESS_TOKENS ',').map jsTrim)
            ++ magentoPart env)
      else Except.error "Number of domains and access tokens must match") ∧
    (List.zipWith (fun d t => Store.mk StoreType.shopify d t)
        ((jsSplit env.SHOPIFY_DOMAINS ',').map jsTrim)
        ((jsSplit env.SHOPIFY_ACCESS_TOKENS ',').map jsTrim)).length =
      min ((jsSplit env.SHOPIFY_DOMAINS ',').map jsTrim).length
        ((jsSplit env.SHOPIFY_ACCESS_TOKENS ',').map jsTrim).length := by
  refine ⟨?_, List.length_zipWith _ _ _⟩
  unfold getStoresFromEnv magentoPart
  rw [if_pos ⟨h1, h2⟩]
  by_cases hlen : ((jsSplit env.SHOPIFY_DOMAINS ',').map jsTrim).length =
      ((jsSplit env.SHOPIFY_ACCESS_TOKENS ',').map jsTrim).length
  · rw [if_pos hlen, if_neg (fun hne => hne hlen)]
    dsimp only
    by_cases hm : env.MAGENTO_DOMAINS ≠ "" ∧ env.MAGENTO_ACCESS_TOKENS ≠ ""
    · rw [if_pos hm, if_pos hm, if_neg (by simp)]
      rfl
    · rw [if_neg hm, if_neg hm, List.append_nil]
  · rw [if_neg hlen, if_pos hlen]

/-- C3 witness: a concrete environment with two Shopify domains, two
tokens and a Magento store, evaluated through the parity theorem. -/
theorem getStoresFromEnv_parity_witness :
    (("a,b" : String) ≠ "" ∧ ("t,u" : String) ≠ "") ∧
    (getStoresFromEnv ⟨"a,b", "t,u", "m.com", "mt", "", "", ""⟩ =
      (if ((jsSplit "a,b" ',').map jsTrim).length =
          ((jsSplit "t,u" ',').map jsTrim).length then
        Except.ok
          (List.zipWith (fun d t => Store.mk StoreType.shopify d t)
              ((jsSplit "a,b" ',').map jsTrim) ((jsSplit "t,u" ',').map jsTrim)
            ++ magentoPart ⟨"a,b", "t,u", "m.com", "mt", "", "", ""⟩)
      else Except.error "Number of domains and access tokens must match") ∧
    (List.zipWith (fun d t => Store.mk StoreType.shopify d t)
        ((jsSplit "a,b" ',').map jsTrim) ((jsSplit "t,u" ',').map jsTrim)).length =
      min ((jsSplit "a,b" ',').map jsTrim).length
        ((jsSplit "t,u" ',').map jsTrim).length) :=
  ⟨by decide,
   getStoresFromEnv_parity ⟨"a,b", "t,u", "m.com", "mt", "", "", ""⟩
     (by decide) (by decide)⟩

/-- C4: every scheduled invocation completes without raising — whatever the
configuration, the per-store fetch outcomes and the webhook response — and
when the webhook endpoint answers with a non-success status, `sendToCliq`
itself fails with the delivery error carrying that status text. -/
theorem scheduled_swallows_errors (env : Environment)
    (fetch : Store → Except String StoreMetrics) (resp resp2 : HttpResponse)
    (date : String) (storeData : List (String × StoreMetrics))
    (hresp : resp.ok = false) :
    (scheduledRun env fetch resp2 date).raised = false ∧
    sendToCliq resp storeData date =
      Except.error ("Failed to send message to Cliq: " ++ resp.statusText) := by
  constructor
  · unfold scheduledRun
    cases getStoresFromEnv env with
    | error e => rfl
    | ok stores =>
      dsimp only
      cases sendToCliq resp2 (buildStoreMetrics stores fetch) date with
      | error e => rfl
      | ok m => rfl
  · simp [sendToCliq, hresp]

/-- C4 witness: a run whose only store fails to fetch still completes with
`raised = false`, and a concrete non-success webhook response yields the
delivery error. -/
theorem scheduled_swallows_errors_witness :
    (scheduledRun ⟨"a", "t", "", "", "", "", ""⟩ (fun _ => Except.error "boom")
        ⟨true, "OK"⟩ "2024-03-14").raised = false ∧
    sendToCliq ⟨false, "Service Unavailable"⟩ [("a", ⟨1, some 2⟩)] "2024-03-14" =
      Except.error ("Failed to send message to Cliq: " ++ "Service Unavailable") :=
  scheduled_swallows_errors ⟨"a", "t", "", "", "", "", ""⟩
    (fun _ => Except.error "boom") ⟨false, "Service Unavailable"⟩ ⟨true, "OK"⟩
    "2024-03-14" [("a", ⟨1, some 2⟩)] rfl

/-- If every domain and every token in the split lists is non-empty, so is
every field of every descriptor zipped from them. -/
theorem zipWith_shopify_all_nonempty (ds ts : List String)
    (hd : ds.all (fun x => x != "") = true) (ht : ts.all (fun x => x != "") = true) :
    (List.zipWith (fun d t => Store.mk StoreType.shopify d t) ds ts).all
      (fun s => s.domain != "" && s.accessToken != "") = true := by
  induction ds generalizing ts with
  | nil => simp
  | cons d ds ih =>
    cases ts with
    | nil => simp
    | cons t ts =>
      simp only [List.all_cons, Bool.and_eq_true] at hd ht
      simp only [List.zipWith_cons_cons, List.all_cons, Bool.and_eq_true]
      exact ⟨⟨hd.1, ht.1⟩, ih ts hd.2 ht.2⟩

/-- C9 counterexample: with `SHOPIFY_DOMAINS = ","` and
`SHOPIFY_ACCESS_TOKENS = ","` (both non-empty strings), configuration
loading succeeds and returns two descriptors whose domain and access token
are all the empty string, so the non-emptiness invariant fails. -/
theorem stores_nonempty_cex :
    getStoresFromEnv ⟨",", ",", "", "", "", "", ""⟩ =
      Except.ok [⟨StoreType.shopify, "", ""⟩, ⟨StoreType.shopify, "", ""⟩] ∧
    ([⟨StoreType.shopify, "", ""⟩, ⟨StoreType.shopify, "", ""⟩] : List Store).all
      (fun s => s.domain != "" && s.accessToken != "") = false := by
  decide

/-- C9 (amended): every store descriptor returned by a successful
`getStoresFromEnv` has a non-empty domain and a non-empty access token,
provided every comma-separated entry of the Shopify domain and token
fields is non-empty after trimming (the Magento fields need no side
condition: the guard already requires them to be non-empty and they are
used whole). -/
theorem stores_nonempty_amended (env : Environment) (stores : List Store)
    (hok : getStoresFromEnv env = Except.ok stores)
    (hsh : env.SHOPIFY_DOMAINS ≠ "" → env.SHOPIFY_ACCESS_TOKENS ≠ "" →
      ((jsSplit env.SHOPIFY_DOMAINS ',').map jsTrim).all (fun x => x != "") = true ∧
      ((jsSplit env.SHOPIFY_ACCESS_TOKENS ',').map jsTrim).all
        (fun x => x != "") = true) :
    stores.all (fun s => s.domain != "" && s.accessToken != "") = true := by
  unfold getStoresFromEnv at hok
  by_cases hg : env.SHOPIFY_DOMAINS ≠ "" ∧ env.SHOPIFY_ACCESS_TOKENS ≠ ""
  · rw [if_pos hg] at hok
    by_cases hlen : ((jsSplit env.SHOPIFY_DOMAINS ',').map jsTrim).length ≠
        ((jsSplit env.SHOPIFY_ACCESS_TOKENS ',').map jsTrim).length
    · rw [if_pos hlen] at hok
      exact absurd hok (by simp)
    · rw [if_neg hlen] at hok
      dsimp only at hok
      obtain ⟨hd, ht⟩ := hsh hg.1 hg.2
      have hzip := zipWith_shopify_all_nonempty _ _ hd ht
      by_cases hm : env.MAGENTO_DOMAINS ≠ "" ∧ env.MAGENTO_ACCESS_TOKENS ≠ ""
      · rw [if_pos hm, if_neg (by simp)] at hok
        obtain rfl := (Except.ok.injEq _ _).mp hok.symm
        simp only [List.all_append, Bool.and_eq_true]
        refine ⟨hzip, ?_⟩
        simp [bne_iff_ne, hm.1, hm.2]
      · rw [if_neg hm] at hok
        obtain rfl := (Except.ok.injEq _ _).mp hok.symm
        exact hzip
  · rw [if_neg hg] at hok
    dsimp only at hok
    by_cases hm : env.MAGENTO_DOMAINS ≠ "" ∧ env.MAGENTO_ACCESS_TOKENS ≠ ""
    · rw [if_pos hm, if_neg (by simp)] at hok
      obtain rfl := (Except.ok.injEq _ _).mp hok.symm
      simp [bne_iff_ne, hm.1, hm.2]
    · rw [if_neg hm] at hok
      obtain rfl := (Except.ok.injEq _ _).mp hok.symm
      rfl

/-- C9 witness: a concrete environment with all-non-empty entries, whose
three descriptors all pass the non-emptiness check. -/
theorem stores_nonempty_amended_witness :
    ([⟨StoreType.shopify, "a", "t"⟩, ⟨StoreType.shopify, "b", "u"⟩,
      ⟨StoreType.magento, "m.com", "mt"⟩] : List Store).all
      (fun s => s.domain != "" && s.accessToken != "") = true :=
  stores_nonempty_amended ⟨"a,b", "t,u", "m.com", "mt", "", "", ""⟩
    [⟨StoreType.shopify, "a", "t"⟩, ⟨StoreType.shopify, "b", "u"⟩,
     ⟨StoreType.magento, "m.com", "mt"⟩]
    (by decide) (fun _ _ => by decide)

/-- A two-store configuration whose stores share the domain `a`. -/
def dupEnv : Environment := ⟨"a,a", "t,u", "", "", "", "", ""⟩

/-- A fetch oracle that fails for the first duplicate store (token `t`) and
returns real metrics for the second (token `u`). -/
def dupFetch (s : Store) : Except String StoreMetrics :=
  if s.accessToken = "t" then Except.error "boom"
  else Except.ok ⟨5, some 100⟩

/-- C2 counterexample: with two configured stores sharing the domain `a`,
one failing and one succeeding with (5, 100), the metrics map cannot map
the failing store's domain to zero metrics and the succeeding store's
domain to (5, 100) at once — both writes land on the same key, and the
final entry holds the succeeding store's values, not the zeros the claim
requires for the failing store's domain. -/
theorem scheduled_fault_isolation_cex :
    getStoresFromEnv dupEnv =
      Except.ok [⟨StoreType.shopify, "a", "t"⟩, ⟨StoreType.shopify, "a", "u"⟩] ∧
    dupFetch ⟨StoreType.shopify, "a", "t"⟩ = Except.error "boom" ∧
    dupFetch ⟨StoreType.shopify, "a", "u"⟩ = Except.ok ⟨5, some 100⟩ ∧
    assocGet (scheduledRun dupEnv dupFetch ⟨true, "OK"⟩ "2024-03-14").metrics
        (Store.domain ⟨StoreType.shopify, "a", "t"⟩) ≠
      some ⟨0, some 0⟩ := by
  with_unfolding_all decide

/-- C2 (amended): for every configured store list of two stores with
distinct domains — the failing store listed first or second — where one
store's fetch raises any error and the other's returns (5, 100), the
scheduled run's metrics map sends the failing store's domain to zero
metrics and the succeeding store's domain to its real values, every
configured store's domain is present in the map, and the webhook send is
invoked exactly once. -/
theorem scheduled_fault_isolation (env : Environment)
    (fetch : Store → Except String StoreMetrics) (resp : HttpResponse)
    (date : String) (sFail sOk : Store) (e : String)
    (hstores : getStoresFromEnv env = Except.ok [sFail, sOk] ∨
      getStoresFromEnv env = Except.ok [sOk, sFail])
    (hdom : sFail.domain ≠ sOk.domain)
    (h1 : fetch sFail = Except.error e)
    (h2 : fetch sOk = Except.ok ⟨5, some 100⟩) :
    assocGet (scheduledRun env fetch resp date).metrics sFail.domain =
      some ⟨0, some 0⟩ ∧
    assocGet (scheduledRun env fetch resp date).metrics sOk.domain =
      some ⟨5, some 100⟩ ∧
    (([sFail, sOk] : List Store).all (fun s =>
      (assocGet (scheduledRun env fetch resp date).metrics s.domain).isSome)) =
      true ∧
    (scheduledRun env fetch resp date).webhookSends = 1 := by
  rcases hstores with hstores | hstores
  · have hb : buildStoreMetrics [sFail, sOk] fetch =
        [(sFail.domain, ⟨0, some 0⟩), (sOk.domain, ⟨5, some 100⟩)] := by
      unfold buildStoreMetrics fetchStore
      simp [assocSet, h1, h2, hdom]
    have hrun : scheduledRun env fetch resp date =
        { metrics := [(sFail.domain, ⟨0, some 0⟩), (sOk.domain, ⟨5, some 100⟩)],
          webhookSends := 1, raised := false } := by
      unfold scheduledRun
      rw [hstores]
      dsimp only
      rw [hb]
      cases sendToCliq resp
          [(sFail.domain, ⟨0, some 0⟩), (sOk.domain, ⟨5, some 100⟩)] date with
      | error e2 => rfl
      | ok m => rfl
    rw [hrun]
    refine ⟨?_, ?_, ?_, rfl⟩
    · simp [assocGet]
    · simp [assocGet, hdom]
    · simp [assocGet, hdom]
  · have hb : buildStoreMetrics [sOk, sFail] fetch =
        [(sOk.domain, ⟨5, some 100⟩), (sFail.domain, ⟨0, some 0⟩)] := by
      unfold buildStoreMetrics fetchStore
      simp [assocSet, h1, h2, Ne.symm hdom]
    have hrun : scheduledRun env fetch resp date =
        { metrics := [(sOk.domain, ⟨5, some 100⟩), (sFail.domain, ⟨0, some 0⟩)],
          webhookSends := 1, raised := false } := by
      unfold scheduledRun
      rw [hstores]
      dsimp only
      rw [hb]
      cases sendToCliq resp
          [(sOk.domain, ⟨5, some 100⟩), (sFail.domain, ⟨0, some 0⟩)] date with
      | error e2 => rfl
      | ok m => rfl
    rw [hrun]
    refine ⟨?_, ?_, ?_, rfl⟩
    · simp [assocGet, Ne.symm hdom]
    · simp [assocGet]
    · simp [assocGet, Ne.symm hdom]

/-- A two-store configuration with distinct domains `a` and `b`. -/
def faultEnv : Environment := ⟨"a,b", "t,u", "", "", "", "", ""⟩

/-- A fetch oracle that fails for domain `a` and returns (5, 100)
otherwise. -/
def faultFetch (s : Store) : Except String StoreMetrics :=
  if s.domain = "a" then Except.error "boom"
  else Except.ok ⟨5, some 100⟩

/-- C2 witness: the amended fault-isolation property evaluated on the
concrete two-store configuration with domains `a` (failing) and `b`
(succeeding). -/
theorem scheduled_fault_isolation_witness :
    assocGet (scheduledRun faultEnv faultFetch ⟨true, "OK"⟩ "2024-03-14").metrics
        (Store.domain ⟨StoreType.shopify, "a", "t"⟩) = some ⟨0, some 0⟩ ∧
    assocGet (scheduledRun faultEnv faultFetch ⟨true, "OK"⟩ "2024-03-14").metrics
        (Store.domain ⟨StoreType.shopify, "b", "u"⟩) = some ⟨5, some 100⟩ ∧
    (([⟨StoreType.shopify, "a", "t"⟩, ⟨StoreType.shopify, "b", "u"⟩] :
        List Store).all (fun s =>
      (assocGet (scheduledRun faultEnv faultFetch ⟨true, "OK"⟩
        "2024-03-14").metrics s.domain).isSome)) = true ∧
    (scheduledRun faultEnv faultFetch ⟨true, "OK"⟩ "2024-03-14").webhookSends = 1 :=
  scheduled_fault_isolation faultEnv faultFetch ⟨true, "OK"⟩ "2024-03-14"
    ⟨StoreType.shopify, "a", "t"⟩ ⟨StoreType.shopify, "b", "u"⟩ "boom"
    (Or.inl (by decide)) (by decide) (by decide) (by with_unfolding_all decide)

/-- When every page of the mock reports `hasNextPage = true`, the paginated
loop runs until its fuel is exhausted, collecting the edges of the next
`fuel` pages and issuing exactly `fuel` further requests. -/
theorem shopifyLoop_all_next (pages : Nat → Except String ShopifyPage)
    (h : ∀ i, ∃ p, pages i = Except.ok p ∧ p.hasNextPage = true) :
    ∀ (fuel pageCount : Nat) (cursor : Option String) (acc : List ShopifyEdge),
      shopifyLoop pages fuel pageCount cursor acc =
        Except.ok
          (acc ++ ((List.range fuel).map
            (fun j => okEdges (pages (pageCount + j)))).flatten,
           pageCount + fuel) := by
  intro fuel
  induction fuel with
  | zero =>
    intro pageCount cursor acc
    simp [shopifyLoop]
  | succ n ih =>
    intro pageCount cursor acc
    obtain ⟨p, hp, hnext⟩ := h pageCount
    have hhead : okEdges (pages pageCount) = p.edges := by rw [hp]; rfl
    have hfun : ((fun j => okEdges (pages (pageCount + j))) ∘ Nat.succ) =
        (fun j => okEdges (pages (pageCount + 1 + j))) := by
      funext j
      have hidx : pageCount + Nat.succ j = pageCount + 1 + j := by omega
      simp only [Function.comp_apply, hidx]
    rw [shopifyLoop, hp]
    simp only [hnext, if_true]
    rw [ih (pageCount + 1) p.endCursor (acc ++ p.edges)]
    rw [List.range_succ_eq_map, List.map_cons, List.map_map, List.flatten_cons]
    simp only [Nat.add_zero, hhead, hfun, List.append_assoc]
    have hpc : pageCount + 1 + n = pageCount + (n + 1) := by omega
    rw [hpc]

/-- C6: whenever every page response reports `hasNextPage = true` (as a
mock doing so for 25 consecutive pages does), `fetchShopifyOrders` issues
exactly `MAX_PAGES = 20` page requests, terminates without an error, and
returns metrics computed from precisely the edges of those 20 pages. -/
theorem shopify_page_cap (pages : Nat → Except String ShopifyPage)
    (h : ∀ i, ∃ p, pages i = Except.ok p ∧ p.hasNextPage = true) :
    fetchShopifyOrders pages =
      Except.ok
        ({ orderCount := (pagesEdges pages MAX_PAGES).length,
           totalAmount := shopifySum (pagesEdges pages MAX_PAGES) },
         MAX_PAGES) := by
  unfold fetchShopifyOrders
  rw [shopifyLoop_all_next pages h MAX_PAGES 0 none []]
  dsimp only
  rw [List.nil_append]
  unfold pagesEdges
  simp

/-- The always-more-pages mock used to witness the page cap: every request
returns one edge of amount `1.00` and `hasNextPage = true`. -/
def capPages (_ : Nat) : Except String ShopifyPage :=
  Except.ok ⟨[⟨"1.00", "USD"⟩], true, some "c"⟩

/-- C6 witness: on the always-more-pages mock the fetcher stops at 20
requests with 20 one-edge pages collected, i.e. metrics (20, 20). -/
theorem shopify_page_cap_witness :
    fetchShopifyOrders capPages = Except.ok (⟨20, some 20⟩, 20) := by
  rw [shopify_page_cap capPages
    (fun _ => ⟨⟨[⟨"1.00", "USD"⟩], true, some "c"⟩, rfl, rfl⟩)]
  with_unfolding_all decide

/-- C8: when page 1 holds three order items with `grand_total` equal to
`"20.00"`, absent, and `"not-a-number"` (and `total_count = 3`, so no
further pages), `fetchMagentoOrders` returns order count 3 — the number of
accumulated items — and total amount exactly 20; absent and non-numeric
`grand_total` values contribute 0 to the sum. -/
theorem magento_malformed_amounts (pages : Nat → Except String MagentoPage)
    (h : pages 1 = Except.ok
      ⟨some [⟨some "20.00"⟩, ⟨none⟩, ⟨some "not-a-number"⟩], some 3⟩) :
    fetchMagentoOrders pages = Except.ok ⟨3, some 20⟩ ∧
    magentoOrderTotal ⟨none⟩ = 0 ∧
    magentoOrderTotal ⟨some "not-a-number"⟩ = 0 := by
  refine ⟨?_, by with_unfolding_all decide, by with_unfolding_all decide⟩
  unfold fetchMagentoOrders
  rw [h]
  with_unfolding_all rfl

/-- The one-page mock with the three malformed-amount order items. -/
def malformedPages (_ : Nat) : Except String MagentoPage :=
  Except.ok ⟨some [⟨some "20.00"⟩, ⟨none⟩, ⟨some "not-a-number"⟩], some 3⟩

/-- C8 witness: the malformed-amount property evaluated on the concrete
one-page mock. -/
theorem magento_malformed_amounts_witness :
    fetchMagentoOrders malformedPages = Except.ok ⟨3, some 20⟩ ∧
    magentoOrderTotal ⟨none⟩ = 0 ∧
    magentoOrderTotal ⟨some "not-a-number"⟩ = 0 :=
  magento_malformed_amounts malformedPages rfl

/-! ## C10: metrics-map key lemmas -/

/-- Membership in the keys after a JS-object assignment. -/
theorem assocSet_keys_mem {α : Type} (m : List (String × α)) (k d : String)
    (v : α) :
    d ∈ (assocSet m k v).map Prod.fst ↔ d ∈ m.map Prod.fst ∨ d = k := by
  induction m with
  | nil => simp [assocSet]
  | cons p rest ih =>
    by_cases hk : p.1 = k
    · simp only [assocSet, if_pos hk]
      simp only [List.map_cons, List.mem_cons, hk]
      tauto
    · simp only [assocSet, if_neg hk]
      simp only [List.map_cons, List.mem_cons, ih]
      tauto

/-- JS-object assignment preserves key distinctness. -/
theorem assocSet_keys_nodup {α : Type} (m : List (String × α)) (k : String)
    (v : α) (h : (m.map Prod.fst).Nodup) :
    ((assocSet m k v).map Prod.fst).Nodup := by
  induction m with
  | nil => simp [assocSet]
  | cons p rest ih =>
    simp only [List.map_cons, List.nodup_cons] at h
    by_cases hk : p.1 = k
    · simp only [assocSet, if_pos hk, List.map_cons, List.nodup_cons]
      exact h
    · simp only [assocSet, if_neg hk, List.map_cons, List.nodup_cons]
      refine ⟨?_, ih h.2⟩
      rw [assocSet_keys_mem]
      rintro (hmem | rfl)
      · exact h.1 hmem
      · exact hk rfl

/-- Reading back the key just assigned. -/
theorem assocGet_set_self {α : Type} (m : List (String × α)) (k : String)
    (v : α) : assocGet (assocSet m k v) k = some v := by
  induction m with
  | nil => simp [assocSet, assocGet]
  | cons p rest ih =>
    by_cases hk : p.1 = k
    · simp [assocSet, if_pos hk, assocGet, hk]
    · simp [assocSet, if_neg hk, assocGet, hk, ih]

/-- Assignment to one key leaves every other key's value unchanged. -/
theorem assocGet_set_other {α : Type} (m : List (String × α)) (k d : String)
    (v : α) (h : d ≠ k) : assocGet (assocSet m k v) d = assocGet m d := by
  induction m with
  | nil => simp [assocSet, assocGet, Ne.symm h]
  | cons p rest ih =>
    by_cases hk : p.1 = k
    · simp [assocSet, hk, assocGet, Ne.symm h]
    · by_cases hpd : p.1 = d
      · simp [assocSet, hk, assocGet, hpd, h]
      · simp [assocSet, hk, assocGet, hpd, ih]

/-- Keys accumulated by the metrics-map fold: exactly the initial keys plus
the domains of the processed stores. -/
theorem buildFold_keys_mem (fetch : Store → Except String StoreMetrics) :
    ∀ (stores : List Store) (acc : List (String × StoreMetrics)) (d : String),
      d ∈ ((stores.foldl
        (fun acc s => assocSet acc s.domain (fetchStore fetch s)) acc).map
          Prod.fst) ↔
        d ∈ acc.map Prod.fst ∨ d ∈ stores.map Store.domain := by
  intro stores
  induction stores with
  | nil => simp
  | cons s rest ih =>
    intro acc d
    simp only [List.foldl_cons, ih, assocSet_keys_mem, List.map_cons,
      List.mem_cons]
    tauto

/-- The metrics-map fold preserves key distinctness. -/
theorem buildFold_keys_nodup (fetch : Store → Except String StoreMetrics) :
    ∀ (stores : List Store) (acc : List (String × StoreMetrics)),
      (acc.map Prod.fst).Nodup →
      ((stores.foldl
        (fun acc s => assocSet acc s.domain (fetchStore fetch s)) acc).map
          Prod.fst).Nodup := by
  intro stores
  induction stores with
  | nil => intro acc h; simpa using h
  | cons s rest ih =>
    intro acc h
    simp only [List.foldl_cons]
    exact ih _ (assocSet_keys_nodup _ _ _ h)

/-- A key belonging to none of the processed stores keeps its initial
value through the metrics-map fold. -/
theorem buildFold_get_absent (fetch : Store → Except String StoreMetrics) :
    ∀ (stores : List Store) (acc : List (String × StoreMetrics)) (d : String),
      d ∉ stores.map Store.domain →
      assocGet (stores.foldl
        (fun acc s => assocSet acc s.domain (fetchStore fetch s)) acc) d =
        assocGet acc d := by
  intro stores
  induction stores with
  | nil => intro acc d _; rfl
  | cons s rest ih =>
    intro acc d hd
    simp only [List.map_cons, List.mem_cons, not_or] at hd
    simp only [List.foldl_cons]
    rw [ih _ d hd.2, assocGet_set_other _ _ _ _ hd.1]

/-- For a key that is some processed store's domain, the metrics-map fold
stores the fetch result of the last store in the list with that domain:
with duplicate domains, the later write overwrites the earlier one. -/
theorem buildFold_get_last (fetch : Store → Except String StoreMetrics) :
    ∀ (stores : List Store) (acc : List (String × StoreMetrics)) (d : String),
      d ∈ stores.map Store.domain →
      assocGet (stores.foldl
        (fun acc s => assocSet acc s.domain (fetchStore fetch s)) acc) d =
        (stores.reverse.find? (fun s => s.domain == d)).map (fetchStore fetch) := by
  intro stores
  induction stores with
  | nil => intro acc d hd; simp at hd
  | cons s rest ih =>
    intro acc d hd
    simp only [List.foldl_cons, List.reverse_cons, List.find?_append]
    by_cases hrest : d ∈ rest.map Store.domain
    · rw [ih _ d hrest]
      have hsome : (rest.reverse.find? (fun s => s.domain == d)).isSome := by
        obtain ⟨s', hs', hds'⟩ := List.mem_map.mp hrest
        rw [List.find?_isSome]
        exact ⟨s', by simpa using hs', by simp [hds']⟩
      obtain ⟨s', hs'⟩ := Option.isSome_iff_exists.mp hsome
      rw [hs']
      rfl
    · have hdd : d = s.domain := by
        simp only [List.map_cons, List.mem_cons] at hd
        tauto
      have hnone : rest.reverse.find? (fun s => s.domain == d) = none := by
        rw [List.find?_eq_none]
        intro x hx
        simp only [beq_iff_eq]
        intro hc
        exact hrest (List.mem_map.mpr ⟨x, by simpa using hx, hc⟩)
      rw [buildFold_get_absent fetch rest _ d hrest, hnone, hdd,
        assocGet_set_self]
      simp

/-- C10: the metrics map built by the scheduled handler is keyed solely by
store domain — its keys are distinct, a key occurs exactly when it is some
configured store's domain, and each key's value is the fetch result
(or zero fallback) of the last configured store carrying that domain, so
two stores sharing a domain write to the same single entry, one
overwriting the other. -/
theorem metrics_map_keys (stores : List Store)
    (fetch : Store → Except String StoreMetrics) :
    ((buildStoreMetrics stores fetch).map Prod.fst).Nodup ∧
    ((buildStoreMetrics stores fetch).map Prod.fst).all
      (fun d => (stores.map Store.domain).contains d) = true ∧
    (stores.map Store.domain).all
      (fun d => ((buildStoreMetrics stores fetch).map Prod.fst).contains d) =
      true ∧
    (stores.map Store.domain).all
      (fun d => decide (assocGet (buildStoreMetrics stores fetch) d =
        ((stores.reverse.find? (fun s => s.domain == d)).map
          (fetchStore fetch)))) = true := by
  unfold buildStoreMetrics
  refine ⟨buildFold_keys_nodup fetch stores [] (by simp), ?_, ?_, ?_⟩
  · rw [List.all_eq_true]
    intro d hd
    have hmem := (buildFold_keys_mem fetch stores [] d).mp hd
    simp only [List.map_nil, List.not_mem_nil, false_or] at hmem
    exact List.elem_iff.mpr hmem
  · rw [List.all_eq_true]
    intro d hd
    have hmem := (buildFold_keys_mem fetch stores [] d).mpr (Or.inr hd)
    exact List.elem_iff.mpr hmem
  · rw [List.all_eq_true]
    intro d hd
    rw [decide_eq_true_eq]
    exact buildFold_get_last fetch stores [] d hd

